import Mathlib

/-!
# Verification of the BB84 simulation engine (backend of qwertystars/BB84)

This file gives a shallow embedding, in Lean 4, of the classical BB84
simulation engine found in `backend/utils.py`, the five scenario functions
under `backend/simulations/`, the request models of `backend/models.py`, and
the `simulate_bb84` pipeline plus response assembly of `backend/main.py`,
together with theorems about the embedded code.

Modelling conventions:

* NumPy integer arrays become `List Int`; boolean arrays become `List Bool`;
  Python floats become `ℚ` (the engine's float arithmetic — sums, products and
  quotients of small decimal constants — is modelled exactly over the
  rationals; IEEE rounding is abstracted away).
* The global NumPy random generator (`np.random`) is modelled by an explicit
  state `NpState`: an inexhaustible source of integer draws (for
  `np.random.randint(0, 2, ·)`, whose results lie in `{0, 1}`, modelled as
  `· % 2` of the source values) and of uniform draws in `[0, 1)` (for
  `np.random.random`), each with a current position.  Every primitive that
  consumes randomness takes and returns this state, in the same draw order as
  the Python code.  `np.random.seed(s)` replaces the whole state by a value
  determined by `s` alone; the Mersenne-Twister generator itself is abstracted
  as an arbitrary function from seeds to states.
* Python exceptions (`ValueError` from NumPy broadcasting, `IndexError` from
  boolean-mask indexing of the wrong length) become `Except String`.
  NumPy elementwise `==` on two 1-D arrays broadcasts when either operand has
  length one and raises otherwise when the lengths differ; boolean-mask
  indexing requires the mask length to equal the array length.
* Wall-clock fields (`time.time()`, `execution_time`) and the Qiskit circuit
  objects of `main.py` are not modelled; the Aer simulator called by
  `simulate_bb84` is abstracted as an oracle: a fixed function of the seed and
  the circuit data when `seed_simulator` is supplied, and an arbitrary
  per-call source of outcomes when it is not.
-/

/-- State of the global NumPy random generator, abstracted: `ints` enumerates
the successive results of the underlying integer draws backing
`np.random.randint(0, 2, ·)` (taken modulo 2 on use), `unis` the successive
results of `np.random.random()`, with `ipos`/`upos` the next positions. -/
structure NpState where
  ints : Nat → Int
  unis : Nat → ℚ
  ipos : Nat
  upos : Nat

/-- `np.random.randint(0, 2, n)`: draw `n` values in `{0, 1}`. -/
def drawIntVec (n : Nat) (st : NpState) : List Int × NpState :=
  ((List.range n).map fun k => st.ints (st.ipos + k) % 2,
   { st with ipos := st.ipos + n })

/-- Scalar `np.random.randint(0, 2)`. -/
def drawInt1 (st : NpState) : Int × NpState :=
  (st.ints st.ipos % 2, { st with ipos := st.ipos + 1 })

/-- `np.random.random(n)`: draw `n` uniform values. -/
def drawUnifVec (n : Nat) (st : NpState) : List ℚ × NpState :=
  ((List.range n).map fun k => st.unis (st.upos + k),
   { st with upos := st.upos + n })

/-- Scalar `np.random.random()`. -/
def drawUnif1 (st : NpState) : ℚ × NpState :=
  (st.unis st.upos, { st with upos := st.upos + 1 })

/-- `utils.generate_random_bits(length)`. -/
def generate_random_bits (length : Nat) (st : NpState) : List Int × NpState :=
  drawIntVec length st

/-- `utils.generate_random_bases(length)`. -/
def generate_random_bases (length : Nat) (st : NpState) : List Int × NpState :=
  drawIntVec length st

/-- NumPy boolean-mask selection `a[m]` on equal-length operands: keep the
entries of `a` at the positions where `m` is `true`. -/
def maskSelect : List Int → List Bool → List Int
  | x :: xs, b :: bs => if b then x :: maskSelect xs bs else maskSelect xs bs
  | _, _ => []

/-- NumPy elementwise `==` on two 1-D integer arrays, with 1-D broadcasting:
equal lengths compare pointwise, a length-one operand is broadcast, and any
other length combination raises a `ValueError`. -/
def npEq (a b : List Int) : Except String (List Bool) :=
  if a.length = b.length then
    .ok (List.zipWith (fun x y => x == y) a b)
  else if a.length = 1 then
    .ok (b.map fun y => a.headI == y)
  else if b.length = 1 then
    .ok (a.map fun x => x == b.headI)
  else
    .error "ValueError: operands could not be broadcast together"

/-- NumPy boolean-mask indexing `a[m]`: raises an `IndexError` unless the
boolean mask has the same length as the indexed array. -/
def npBoolIndex (a : List Int) (m : List Bool) : Except String (List Int) :=
  if a.length = m.length then .ok (maskSelect a m)
  else .error "IndexError: boolean index did not match indexed array"

/-- Number of positions at which two equal-length arrays differ,
`np.sum(arr1 != arr2)`. -/
def countMismatch (x y : List Int) : Nat :=
  (x.zip y).countP fun p => p.1 != p.2

/-- `utils.compare_arrays(arr1, arr2)`: raises unless the lengths agree, then
returns `np.sum(arr1 != arr2) / len(arr1)` (the division is exact over `ℚ`;
the `len = 0` case, unreachable from `calculate_qber`, would produce an IEEE
`nan` in NumPy and is mapped to `ℚ`'s zero-denominator convention here). -/
def compare_arrays (arr1 arr2 : List Int) : Except String ℚ :=
  if arr1.length ≠ arr2.length then
    .error "Arrays must have the same length"
  else
    .ok ((countMismatch arr1 arr2 : ℚ) / (arr1.length : ℚ))

/-- `utils.apply_channel_error(qubits, error_rate)`: draw one uniform per
position and flip the bit where the draw is below `error_rate`. -/
def apply_channel_error (qubits : List Int) (error_rate : ℚ) (st : NpState) :
    List Int × NpState :=
  let (us, st') := drawUnifVec qubits.length st
  (List.zipWith (fun q u => if u < error_rate then 1 - q else q) qubits us, st')

/-- `''.join(map(str, sifted_bits))`: render a bit list as a string. -/
def renderBits (l : List Int) : String :=
  String.join (l.map toString)

/-- `utils.sift_key(alice_bits, bob_bits, alice_bases, bob_bases)`: compute
the basis-match mask by NumPy elementwise `==`, select Alice's bits at the
matching positions, and return the rendered key together with the mask.  As
in the source, `bob_bits` is never used and no explicit length check is
performed; failures can only come from the NumPy array operations. -/
def sift_key (alice_bits bob_bits alice_bases bob_bases : List Int) :
    Except String (String × List Bool) :=
  match npEq alice_bases bob_bases with
  | .error e => .error e
  | .ok matching_bases =>
    match npBoolIndex alice_bits matching_bases with
    | .error e => .error e
    | .ok sifted_bits => .ok (renderBits sifted_bits, matching_bases)

/-- `utils.calculate_qber(alice_bits, bob_bits, matching_bases)`: return `0.0`
when no position of the mask is set, otherwise select both bit arrays by the
mask and hand them to `compare_arrays`. -/
def calculate_qber (alice_bits bob_bits : List Int) (matching_bases : List Bool) :
    Except String ℚ :=
  if matching_bases.count true = 0 then .ok 0
  else
    match npBoolIndex alice_bits matching_bases with
    | .error e => .error e
    | .ok alice_matched =>
      match npBoolIndex bob_bits matching_bases with
      | .error e => .error e
      | .ok bob_matched => compare_arrays alice_matched bob_matched

/-- `sifted_key_str[:100] + "..." if len(sifted_key_str) > 100 else
sifted_key_str`, the inline truncation used by the four non-detailed
scenario records. -/
def truncKey (s : String) : String :=
  if s.length > 100 then s.take 100 ++ "..." else s

/-- The `summary` dictionary of `simulate_ideal`. -/
structure IdealSummary where
  total_qubits : Nat
  matching_bases : Nat
  sifted_key_length : Nat
  expected_qber : ℚ
  actual_qber : ℚ
  protocol_status : String
  security_level : String

/-- The dictionary returned by `simulate_ideal` (the wall-clock
`execution_time` field is not modelled). -/
structure IdealResult where
  scenario : String
  qubit_count : Nat
  sifted_key : String
  sifted_key_length : Nat
  qber : ℚ
  error_rate : ℚ
  eve_fraction : ℚ
  summary : IdealSummary

/-- The `summary` dictionary of `simulate_error_only`. -/
structure ErrorOnlySummary where
  total_qubits : Nat
  matching_bases : Nat
  sifted_key_length : Nat
  channel_error_rate : ℚ
  expected_qber : ℚ
  actual_qber : ℚ
  protocol_status : String
  security_level : String

/-- The dictionary returned by `simulate_error_only`. -/
structure ErrorOnlyResult where
  scenario : String
  qubit_count : Nat
  sifted_key : String
  sifted_key_length : Nat
  qber : ℚ
  error_rate : ℚ
  eve_fraction : ℚ
  summary : ErrorOnlySummary

/-- The `summary` dictionary of `simulate_error_with_eve`. -/
structure EveSummary where
  total_qubits : Nat
  matching_bases : Nat
  sifted_key_length : Nat
  channel_error_rate : ℚ
  eve_fraction : ℚ
  expected_qber : ℚ
  actual_qber : ℚ
  eve_detected : Bool
  protocol_status : String
  security_level : String

/-- The dictionary returned by `simulate_error_with_eve`. -/
structure EveResult where
  scenario : String
  qubit_count : Nat
  sifted_key : String
  sifted_key_length : Nat
  qber : ℚ
  error_rate : ℚ
  eve_fraction : ℚ
  summary : EveSummary

/-- The `summary` dictionary of `simulate_decoherence_free`. -/
structure DecoSummary where
  total_qubits : Nat
  matching_bases : Nat
  sifted_key_length : Nat
  decoherence_factor : ℚ
  eve_fraction : ℚ
  expected_qber : ℚ
  actual_qber : ℚ
  eve_detected : Bool
  quantum_coherence : String
  protocol_status : String
  security_level : String

/-- The dictionary returned by `simulate_decoherence_free`. -/
structure DecoResult where
  scenario : String
  qubit_count : Nat
  sifted_key : String
  sifted_key_length : Nat
  qber : ℚ
  error_rate : ℚ
  eve_fraction : ℚ
  summary : DecoSummary

/-- The shared intercept-resend loop of `simulate_error_with_eve`,
`simulate_decoherence_free` and `simulate_detailed`: for each position, when
Eve intercepts and her basis differs from Alice's, draw one uniform and flip
the bit (recording the flip) when the draw is below `0.5`.  Returns the
post-Eve bits, the `eve_caused_error` flags (used only by the detailed
scenario) and the advanced random state. -/
def eveLoop : List Int → List Int → List Int → List Bool → NpState →
    List Int × List Bool × NpState
  | ab :: abits, aB :: abases, eB :: ebases, ic :: icpts, st =>
    if ic ∧ aB ≠ eB then
      let p := drawUnif1 st
      let flip : Bool := p.1 < (0.5 : ℚ)
      let r := eveLoop abits abases ebases icpts p.2
      ((if flip then 1 - ab else ab) :: r.1, flip :: r.2.1, r.2.2)
    else
      let r := eveLoop abits abases ebases icpts st
      (ab :: r.1, false :: r.2.1, r.2.2)
  | _, _, _, _, st => ([], [], st)

/-- `simulations/ideal.py: simulate_ideal(qubit_count)`.  Extra keyword
arguments (including any seed) are accepted and ignored by the source; the
random state is the implicit global generator, threaded explicitly here. -/
def simulate_ideal (qubit_count : Nat) (st : NpState) :
    Except String (IdealResult × NpState) :=
  let (alice_bits, st) := generate_random_bits qubit_count st
  let (alice_bases, st) := generate_random_bases qubit_count st
  let (bob_bases, st) := generate_random_bases qubit_count st
  let bob_bits := alice_bits
  match sift_key alice_bits bob_bits alice_bases bob_bases with
  | .error e => .error e
  | .ok (sifted_key_str, matching_bases) =>
    match calculate_qber alice_bits bob_bits matching_bases with
    | .error e => .error e
    | .ok qber =>
      .ok ({ scenario := "ideal"
             qubit_count := qubit_count
             sifted_key := truncKey sifted_key_str
             sifted_key_length := sifted_key_str.length
             qber := qber
             error_rate := 0
             eve_fraction := 0
             summary :=
               { total_qubits := qubit_count
                 matching_bases := matching_bases.count true
                 sifted_key_length := sifted_key_str.length
                 expected_qber := 0
                 actual_qber := qber
                 protocol_status := "Perfect - No errors detected"
                 security_level := "Maximum (No eavesdropping)" } }, st)

/-- `simulations/error_only.py: simulate_error_only(qubit_count, error_rate)`. -/
def simulate_error_only (qubit_count : Nat) (error_rate : ℚ) (st : NpState) :
    Except String (ErrorOnlyResult × NpState) :=
  let (alice_bits, st) := generate_random_bits qubit_count st
  let (alice_bases, st) := generate_random_bases qubit_count st
  let (bob_bases, st) := generate_random_bases qubit_count st
  let (noisy_bits, st) := apply_channel_error alice_bits error_rate st
  let bob_bits := noisy_bits
  match sift_key alice_bits bob_bits alice_bases bob_bases with
  | .error e => .error e
  | .ok (sifted_key_str, matching_bases) =>
    match calculate_qber alice_bits bob_bits matching_bases with
    | .error e => .error e
    | .ok qber =>
      .ok ({ scenario := "error-only"
             qubit_count := qubit_count
             sifted_key := truncKey sifted_key_str
             sifted_key_length := sifted_key_str.length
             qber := qber
             error_rate := error_rate
             eve_fraction := 0
             summary :=
               { total_qubits := qubit_count
                 matching_bases := matching_bases.count true
                 sifted_key_length := sifted_key_str.length
                 channel_error_rate := error_rate
                 expected_qber := error_rate
                 actual_qber := qber
                 protocol_status :=
                   if qber > 0.05 then "Channel noise present"
                   else "Good quality channel"
                 security_level := "Secure (No eavesdropping)" } }, st)

/-- `simulations/error_with_eve.py: simulate_error_with_eve(qubit_count,
error_rate, eve_fraction)`. -/
def simulate_error_with_eve (qubit_count : Nat) (error_rate eve_fraction : ℚ)
    (st : NpState) : Except String (EveResult × NpState) :=
  let (alice_bits, st) := generate_random_bits qubit_count st
  let (alice_bases, st) := generate_random_bases qubit_count st
  let (eve_bases, st) := generate_random_bases qubit_count st
  let (us, st) := drawUnifVec qubit_count st
  let eve_intercepts := us.map fun u => decide (u < eve_fraction)
  let er := eveLoop alice_bits alice_bases eve_bases eve_intercepts st
  let eve_bits := er.1
  let st := er.2.2
  let (bob_bases, st) := generate_random_bases qubit_count st
  let (final_bits, st) := apply_channel_error eve_bits error_rate st
  let bob_bits := final_bits
  match sift_key alice_bits bob_bits alice_bases bob_bases with
  | .error e => .error e
  | .ok (sifted_key_str, matching_bases) =>
    match calculate_qber alice_bits bob_bits matching_bases with
    | .error e => .error e
    | .ok qber =>
      let eve_qber_contribution := 0.25 * eve_fraction
      let expected_qber := error_rate + eve_qber_contribution
      let eve_detected : Bool := qber > error_rate + 0.1
      .ok ({ scenario := "error-eve"
             qubit_count := qubit_count
             sifted_key := truncKey sifted_key_str
             sifted_key_length := sifted_key_str.length
             qber := qber
             error_rate := error_rate
             eve_fraction := eve_fraction
             summary :=
               { total_qubits := qubit_count
                 matching_bases := matching_bases.count true
                 sifted_key_length := sifted_key_str.length
                 channel_error_rate := error_rate
                 eve_fraction := eve_fraction
                 expected_qber := expected_qber
                 actual_qber := qber
                 eve_detected := eve_detected
                 protocol_status :=
                   if eve_detected then "Eavesdropping detected"
                   else "Eavesdropping may be present"
                 security_level :=
                   if qber > 0.15 then "Compromised"
                   else "Potentially secure" } }, st)

/-- `simulations/decoherence_free.py: simulate_decoherence_free(qubit_count,
error_rate, eve_fraction)`: Eve's attack with the channel-noise stage
suppressed. -/
def simulate_decoherence_free (qubit_count : Nat) (error_rate eve_fraction : ℚ)
    (st : NpState) : Except String (DecoResult × NpState) :=
  let (alice_bits, st) := generate_random_bits qubit_count st
  let (alice_bases, st) := generate_random_bases qubit_count st
  let (eve_bases, st) := generate_random_bases qubit_count st
  let (us, st) := drawUnifVec qubit_count st
  let eve_intercepts := us.map fun u => decide (u < eve_fraction)
  let er := eveLoop alice_bits alice_bases eve_bases eve_intercepts st
  let eve_bits := er.1
  let st := er.2.2
  let (bob_bases, st) := generate_random_bases qubit_count st
  let final_bits := eve_bits
  let bob_bits := final_bits
  match sift_key alice_bits bob_bits alice_bases bob_bases with
  | .error e => .error e
  | .ok (sifted_key_str, matching_bases) =>
    match calculate_qber alice_bits bob_bits matching_bases with
    | .error e => .error e
    | .ok qber =>
      let eve_qber_contribution := 0.25 * eve_fraction
      let expected_qber := eve_qber_contribution
      .ok ({ scenario := "decoherence-free"
             qubit_count := qubit_count
             sifted_key := truncKey sifted_key_str
             sifted_key_length := sifted_key_str.length
             qber := qber
             error_rate := error_rate
             eve_fraction := eve_fraction
             summary :=
               { total_qubits := qubit_count
                 matching_bases := matching_bases.count true
                 sifted_key_length := sifted_key_str.length
                 decoherence_factor := 0
                 eve_fraction := eve_fraction
                 expected_qber := expected_qber
                 actual_qber := qber
                 eve_detected := qber > 0.1
                 quantum_coherence := "Preserved from environmental noise"
                 protocol_status :=
                   "Environmental decoherence eliminated, but Eve detection possible"
                 security_level :=
                   if eve_fraction > 0 then
                     "Protected from noise, vulnerable to eavesdropping"
                   else "Maximum security (no eavesdropping)" } }, st)

/-- `simulations/detailed.py: get_quantum_state(bit, basis)`. -/
def get_quantum_state (bit basis : Int) : String :=
  if basis == 0 then
    if bit == 0 then "|0⟩" else "|1⟩"
  else
    if bit == 0 then "|+⟩" else "|-⟩"

/-- One entry of the `qubits_detail` list built by `simulate_detailed`
(Python `None` becomes `Option.none`). -/
structure QubitInfo where
  index : Nat
  alice_bit : Int
  alice_basis : String
  alice_state : String
  eve_intercepted : Bool
  eve_basis : Option String
  eve_measured : Option Int
  eve_caused_error : Bool
  bob_basis : String
  bob_measured : Int
  bases_match : Bool
  bits_match : Bool
  channel_error : Bool
  kept_in_key : Bool

/-- The `summary` dictionary of `simulate_detailed`. -/
structure DetailedSummary where
  total_qubits : Nat
  matching_bases : Nat
  non_matching_bases : Nat
  correct_when_bases_match : Nat
  correct_when_bases_dont_match : Nat
  eve_interceptions : Nat
  eve_caused_errors : Nat
  channel_errors : Nat
  sifted_key_length : Nat
  qber : ℚ

/-- The dictionary returned by `simulate_detailed`.  Note that, unlike the
other four scenarios, the `sifted_key` field is the raw key string without
the 100-character truncation. -/
structure DetailedResult where
  scenario : String
  qubit_count : Nat
  qubits : List QubitInfo
  sifted_key : String
  sifted_key_length : Nat
  qber : ℚ
  error_rate : ℚ
  eve_fraction : ℚ
  summary : DetailedSummary

/-- Step 5 of `simulate_detailed`: Bob takes the transmitted bit where the
bases match and otherwise draws a fresh random bit via a scalar
`np.random.randint(0, 2)`. -/
def bobMeasureLoop : List Int → List Bool → NpState → List Int × NpState
  | f :: fs, bm :: bms, st =>
    if bm then
      let r := bobMeasureLoop fs bms st
      (f :: r.1, r.2)
    else
      let p := drawInt1 st
      let r := bobMeasureLoop fs bms p.2
      (p.1 :: r.1, r.2)
  | _, _, st => ([], st)

/-- The per-position record construction of `simulate_detailed` (the loop
body building `qubit_info` for index `i`; array subscripts become `getD`,
which is never out of range since every list has length `qubit_count`).
The `eve_basis` entry transcribes the source expression
`"Z" if eve_bases[i] == 0 else "X" if eve_fraction > 0 else None`, which by
Python conditional-expression precedence parses as
`"Z" if (eve_bases[i] == 0) else ("X" if (eve_fraction > 0) else None)`. -/
def mkQubitInfo (eve_fraction : ℚ) (alice_bits alice_bases eve_bases : List Int)
    (eve_intercepts : List Bool) (eve_bits : List Int)
    (eve_caused_error : List Bool) (bob_bases : List Int) (bob_bits : List Int)
    (bases_match : List Bool) (bits_match : List Bool)
    (channel_errors : List Bool) (i : Nat) : QubitInfo :=
  { index := i
    alice_bit := alice_bits.getD i 0
    alice_basis := if alice_bases.getD i 0 == 0 then "Z" else "X"
    alice_state := get_quantum_state (alice_bits.getD i 0) (alice_bases.getD i 0)
    eve_intercepted := eve_intercepts.getD i false
    eve_basis :=
      if eve_bases.getD i 0 == 0 then some "Z"
      else if eve_fraction > 0 then some "X"
      else none
    eve_measured :=
      if eve_intercepts.getD i false then some (eve_bits.getD i 0) else none
    eve_caused_error := eve_caused_error.getD i false
    bob_basis := if bob_bases.getD i 0 == 0 then "Z" else "X"
    bob_measured := bob_bits.getD i 0
    bases_match := bases_match.getD i false
    bits_match := bits_match.getD i false
    channel_error := channel_errors.getD i false
    kept_in_key := bases_match.getD i false }

/-- `simulations/detailed.py: simulate_detailed(qubit_count, error_rate,
eve_fraction, show_all)`: unless `show_all` is set, the qubit count is capped
at 20; Bob's wrong-basis measurements are freshly random; a per-position
breakdown is emitted; the sifted key is returned untruncated. -/
def simulate_detailed (qubit_count0 : Nat) (error_rate eve_fraction : ℚ)
    (show_all : Bool) (st : NpState) :
    Except String (DetailedResult × NpState) :=
  let qubit_count := if show_all then qubit_count0 else min qubit_count0 20
  let (alice_bits, st) := generate_random_bits qubit_count st
  let (alice_bases, st) := generate_random_bases qubit_count st
  let (eve_bases, st) := generate_random_bases qubit_count st
  let (us, st) := drawUnifVec qubit_count st
  let eve_intercepts := us.map fun u => decide (u < eve_fraction)
  let er := eveLoop alice_bits alice_bases eve_bases eve_intercepts st
  let eve_bits := er.1
  let eve_caused_error := er.2.1
  let st := er.2.2
  let (bob_bases, st) := generate_random_bases qubit_count st
  let (cus, st) := drawUnifVec qubit_count st
  let channel_errors := cus.map fun u => decide (u < error_rate)
  let final_bits :=
    List.zipWith (fun b e => if e then 1 - b else b) eve_bits channel_errors
  let bases_match := List.zipWith (fun x y => x == y) alice_bases bob_bases
  let bm := bobMeasureLoop final_bits bases_match st
  let bob_bits := bm.1
  let st := bm.2
  let bits_match := List.zipWith (fun x y => x == y) alice_bits bob_bits
  let qubits_detail :=
    (List.range qubit_count).map
      (mkQubitInfo eve_fraction alice_bits alice_bases eve_bases eve_intercepts
        eve_bits eve_caused_error bob_bases bob_bits bases_match bits_match
        channel_errors)
  match sift_key alice_bits bob_bits alice_bases bob_bases with
  | .error e => .error e
  | .ok (sifted_key_str, matching_bases) =>
    match calculate_qber alice_bits bob_bits matching_bases with
    | .error e => .error e
    | .ok qber =>
      let matching_bases_count := bases_match.count true
      let correct_when_matched :=
        (bits_match.zip bases_match).countP fun p => p.1 && p.2
      let not_matched := bases_match.count false
      let correct_when_not_matched :=
        if not_matched > 0 then
          (bits_match.zip bases_match).countP fun p => p.1 && !p.2
        else 0
      let not_matched_count := if not_matched > 0 then not_matched else 0
      .ok ({ scenario := "detailed"
             qubit_count := qubit_count
             qubits := qubits_detail
             sifted_key := sifted_key_str
             sifted_key_length := sifted_key_str.length
             qber := qber
             error_rate := error_rate
             eve_fraction := eve_fraction
             summary :=
               { total_qubits := qubit_count
                 matching_bases := matching_bases_count
                 non_matching_bases := not_matched_count
                 correct_when_bases_match := correct_when_matched
                 correct_when_bases_dont_match := correct_when_not_matched
                 eve_interceptions := eve_intercepts.count true
                 eve_caused_errors := eve_caused_error.count true
                 channel_errors := channel_errors.count true
                 sifted_key_length := sifted_key_str.length
                 qber := qber } }, st)

/-- The result object of `main.py: simulate_bb84` (`BB84Results`; the stored
Qiskit circuits and the mutex are not modelled). -/
structure BB84Results where
  alice_bits : List Int
  alice_bases : List String
  bob_bases : List String
  bob_measurements : List Int
  sifted_key_alice : List Int
  sifted_key_bob : List Int
  qber : ℚ

/-- The Python truthiness filter `seed if seed else None` applied to the
optional seed before it is passed to the Aer simulator: `None` and `0` both
collapse to `None`. -/
def simFilter (seed : Option Int) : Option Int :=
  match seed with
  | none => none
  | some s => if s = 0 then none else some s

/-- String-mask variant of `maskSelect`, for the sifting loop of
`main.py` which compares the `'Z'`/`'X'` basis strings. -/
def maskSelectByBases (bits : List Int) (a b : List String) : List Int :=
  maskSelect bits (List.zipWith (fun x y => x == y) a b)

/-- `main.py: simulate_bb84(n_qubits, noise_level, seed)`.  The classical
draws (Alice's bits and bases, Bob's bases) come from the global NumPy
generator, which `np.random.seed(seed)` resets to a state `mtSeed seed`
(abstracting the Mersenne Twister) whenever a seed is supplied.  Each
qubit's measurement is delegated to the Aer simulator, abstracted by two
oracles: `aerSeeded seed noise bit alice_basis bob_basis` for runs with
`seed_simulator` set (a fixed function, hence reproducible), and
`aerUnseeded i` for unseeded runs (an arbitrary ambient source).  The
`seed_simulator` argument is `seed if seed else None`, so a zero seed leaves
the simulator unseeded. -/
def simulate_bb84 (mtSeed : Int → NpState)
    (aerSeeded : Int → ℚ → Int → String → String → Int)
    (aerUnseeded : Nat → Int) (n_qubits : Nat) (noise_level : ℚ)
    (seed : Option Int) (st0 : NpState) : BB84Results :=
  let st := match seed with | some s => mtSeed s | none => st0
  let (alice_bits, st) := drawIntVec n_qubits st
  let (alice_bases_int, st) := drawIntVec n_qubits st
  let alice_bases := alice_bases_int.map fun b => if b == 0 then "Z" else "X"
  let (bob_bases_int, _) := drawIntVec n_qubits st
  let bob_bases := bob_bases_int.map fun b => if b == 0 then "Z" else "X"
  let bob_measurements :=
    match simFilter seed with
    | some s =>
      (List.range n_qubits).map fun i =>
        aerSeeded s noise_level (alice_bits.getD i 0)
          (alice_bases.getD i "Z") (bob_bases.getD i "Z")
    | none => (List.range n_qubits).map fun i => aerUnseeded i
  let sifted_key_alice := maskSelectByBases alice_bits alice_bases bob_bases
  let sifted_key_bob := maskSelectByBases bob_measurements alice_bases bob_bases
  let qber :=
    if sifted_key_alice.length > 0 then
      (countMismatch sifted_key_alice sifted_key_bob : ℚ) /
        (sifted_key_alice.length : ℚ)
    else 0
  { alice_bits := alice_bits
    alice_bases := alice_bases
    bob_bases := bob_bases
    bob_measurements := bob_measurements
    sifted_key_alice := sifted_key_alice
    sifted_key_bob := sifted_key_bob
    qber := qber }

/-- The `summary` object of the `/run_bb84` response in `main.py`. -/
structure RunSummary where
  total_qubits : Nat
  sifted_key_length : Nat
  efficiency : ℚ
  qber : ℚ
  secure : Bool

/-- The `summary` constructed by the `/run_bb84` endpoint from the
simulation results. -/
def run_bb84_summary (n_qubits : Nat) (r : BB84Results) : RunSummary :=
  { total_qubits := n_qubits
    sifted_key_length := r.sifted_key_alice.length
    efficiency :=
      if n_qubits > 0 then (r.sifted_key_alice.length : ℚ) / (n_qubits : ℚ)
      else 0
    qber := r.qber
    secure := r.qber < 0.11 }

/-- The response object of the `/stats` endpoint in `main.py`. -/
structure StatsResponse where
  qber : ℚ
  total_qubits : Nat
  sifted_key_length : Nat
  efficiency : ℚ
  matching_bases_count : Nat
  error_count : Nat
  secure : Bool
  security_threshold : ℚ

/-- The `/stats` endpoint's response, computed from the stored latest
results. -/
def get_stats_response (r : BB84Results) : StatsResponse :=
  { qber := r.qber
    total_qubits := r.alice_bits.length
    sifted_key_length := r.sifted_key_alice.length
    efficiency :=
      if r.alice_bits.length > 0 then
        (r.sifted_key_alice.length : ℚ) / (r.alice_bits.length : ℚ)
      else 0
    matching_bases_count := r.sifted_key_alice.length
    error_count := countMismatch r.sifted_key_alice r.sifted_key_bob
    secure := r.qber < 0.11
    security_threshold := 0.11 }

/-- Modelled from the declarations in `backend/models.py`: the pydantic
`SimulationRequest` declares `qubit_count: int = Field(ge=10, le=1000)`,
`error_rate: float = Field(ge=0.0, le=0.5)` and
`eve_fraction: float = Field(ge=0.0, le=1.0)`; pydantic's generated
validation (the library machinery itself is outside `src/`) rejects a
request, naming the offending field, exactly when one of these bounds is
violated. -/
def SimulationRequest.validate (qubit_count : Int) (error_rate eve_fraction : ℚ) :
    Except String Unit :=
  if qubit_count < 10 then
    .error "qubit_count: input should be greater than or equal to 10"
  else if 1000 < qubit_count then
    .error "qubit_count: input should be less than or equal to 1000"
  else if error_rate < 0 then
    .error "error_rate: input should be greater than or equal to 0"
  else if (0.5 : ℚ) < error_rate then
    .error "error_rate: input should be less than or equal to 0.5"
  else if eve_fraction < 0 then
    .error "eve_fraction: input should be greater than or equal to 0"
  else if (1 : ℚ) < eve_fraction then
    .error "eve_fraction: input should be less than or equal to 1"
  else
    .ok ()

/-- The value returned by `calculate_qber` on well-shaped inputs: the number
of masked positions at which the two bit arrays disagree, divided by the
number of `true` entries of the mask (with `ℚ`'s `q / 0 = 0` convention
agreeing with the source's explicit `0.0` early return). -/
def qberValue (alice_bits bob_bits : List Int) (m : List Bool) : ℚ :=
  (countMismatch (maskSelect alice_bits m) (maskSelect bob_bits m) : ℚ) /
    (m.count true : ℚ)

/-- A concrete random state: every integer draw is `0`, every uniform draw is
`1/2`. -/
def npZeroState : NpState :=
  { ints := fun _ => 0, unis := fun _ => 1 / 2, ipos := 0, upos := 0 }

/-- A concrete random state whose sixth integer draw differs from the rest,
so that two consecutive one-qubit runs see different basis draws. -/
def npSplitState : NpState :=
  { ints := fun k => if k = 5 then 1 else 0, unis := fun _ => 1 / 2
    ipos := 0, upos := 0 }

/-- A concrete random state for an eight-qubit run in which exactly the first
channel-noise draw falls below the error rate. -/
def npOneFlipState : NpState :=
  { ints := fun _ => 0, unis := fun k => if k = 8 then 0 else 3 / 4
    ipos := 0, upos := 0 }

theorem drawIntVec_fst_length (n : Nat) (st : NpState) :
    (drawIntVec n st).1.length = n := by
  simp [drawIntVec]

theorem drawUnifVec_fst_length (n : Nat) (st : NpState) :
    (drawUnifVec n st).1.length = n := by
  simp [drawUnifVec]

theorem generate_random_bits_length (n : Nat) (st : NpState) :
    (generate_random_bits n st).1.length = n := by
  simp [generate_random_bits, drawIntVec]

theorem generate_random_bases_length (n : Nat) (st : NpState) :
    (generate_random_bases n st).1.length = n := by
  simp [generate_random_bases, drawIntVec]

theorem drawIntVec_mem (n : Nat) (st : NpState) :
    ∀ x ∈ (drawIntVec n st).1, x = 0 ∨ x = 1 := by
  intro x hx
  simp only [drawIntVec, List.mem_map] at hx
  obtain ⟨k, -, rfl⟩ := hx
  exact Int.emod_two_eq_zero_or_one _

theorem maskSelect_length :
    ∀ (a : List Int) (m : List Bool), a.length = m.length →
      (maskSelect a m).length = m.count true
  | [], [], _ => by simp [maskSelect]
  | [], _ :: _, h => by simp at h
  | _ :: _, [], h => by simp at h
  | x :: xs, b :: bs, h => by
    have h' : xs.length = bs.length := by simpa using h
    cases b <;>
      simp [maskSelect, maskSelect_length xs bs h', List.count_cons]

theorem mem_maskSelect :
    ∀ (a : List Int) (m : List Bool) (x : Int), x ∈ maskSelect a m → x ∈ a
  | y :: ys, b :: bs, x, hx => by
    by_cases hb : b
    · subst hb
      simp only [maskSelect, if_true] at hx
      rcases List.mem_cons.1 hx with h | h
      · simp [h]
      · exact List.mem_cons_of_mem _ (mem_maskSelect ys bs x h)
    · simp only [maskSelect, hb, if_false] at hx
      exact List.mem_cons_of_mem _ (mem_maskSelect ys bs x hx)
  | [], _, x, hx => by simp [maskSelect] at hx
  | _ :: _, [], x, hx => by simp [maskSelect] at hx

theorem npEq_ok {a b : List Int} (h : a.length = b.length) :
    npEq a b = .ok (List.zipWith (fun x y => x == y) a b) := by
  simp [npEq, h]

theorem npBoolIndex_ok {a : List Int} {m : List Bool} (h : a.length = m.length) :
    npBoolIndex a m = .ok (maskSelect a m) := by
  simp [npBoolIndex, h]

theorem sift_key_ok {alice_bits alice_bases bob_bases : List Int}
    (bob_bits : List Int) (h1 : alice_bits.length = alice_bases.length)
    (h2 : alice_bases.length = bob_bases.length) :
    sift_key alice_bits bob_bits alice_bases bob_bases =
      .ok (renderBits (maskSelect alice_bits
             (List.zipWith (fun x y => x == y) alice_bases bob_bases)),
           List.zipWith (fun x y => x == y) alice_bases bob_bases) := by
  have hmask : alice_bits.length =
      (List.zipWith (fun x y : Int => x == y) alice_bases bob_bases).length := by
    simp [List.length_zipWith, ← h2, h1]
  simp only [sift_key, npEq_ok h2, npBoolIndex_ok hmask]

theorem compare_arrays_ok {x y : List Int} (h : x.length = y.length) :
    compare_arrays x y = .ok ((countMismatch x y : ℚ) / (x.length : ℚ)) := by
  simp [compare_arrays, h]

theorem countMismatch_le (x y : List Int) :
    countMismatch x y ≤ min x.length y.length := by
  calc countMismatch x y ≤ (x.zip y).length := List.countP_le_length _
    _ = min x.length y.length := List.length_zip ..

theorem calculate_qber_eq {alice_bits bob_bits : List Int} {m : List Bool}
    (h1 : alice_bits.length = m.length) (h2 : bob_bits.length = m.length) :
    calculate_qber alice_bits bob_bits m = .ok (qberValue alice_bits bob_bits m) := by
  by_cases hz : m.count true = 0
  · simp [calculate_qber, hz, qberValue, div_zero]
  · have la := maskSelect_length alice_bits m h1
    have lb := maskSelect_length bob_bits m h2
    have hlen : (maskSelect alice_bits m).length = (maskSelect bob_bits m).length := by
      rw [la, lb]
    simp only [calculate_qber, if_neg hz, npBoolIndex_ok h1, npBoolIndex_ok h2,
      compare_arrays_ok hlen]
    simp [qberValue, la]

theorem qberValue_nonneg (alice_bits bob_bits : List Int) (m : List Bool) :
    0 ≤ qberValue alice_bits bob_bits m :=
  div_nonneg (Nat.cast_nonneg _) (Nat.cast_nonneg _)

theorem qberValue_le_one {alice_bits bob_bits : List Int} {m : List Bool}
    (h1 : alice_bits.length = m.length) (h2 : bob_bits.length = m.length) :
    qberValue alice_bits bob_bits m ≤ 1 := by
  by_cases hz : m.count true = 0
  · simp [qberValue, hz, div_zero]
  · have hle : countMismatch (maskSelect alice_bits m) (maskSelect bob_bits m) ≤
        m.count true := by
      have := countMismatch_le (maskSelect alice_bits m) (maskSelect bob_bits m)
      rw [maskSelect_length alice_bits m h1, maskSelect_length bob_bits m h2] at this
      simpa using this
    have hpos : (0 : ℚ) < (m.count true : ℚ) := by
      exact_mod_cast Nat.pos_of_ne_zero hz
    rw [qberValue, div_le_one hpos]
    exact_mod_cast hle

theorem foldl_append_length :
    ∀ (l : List String) (s : String),
      (l.foldl (fun r t => r ++ t) s).length = s.length + (l.map String.length).sum
  | [], s => by simp
  | t :: l, s => by
    rw [List.foldl_cons, foldl_append_length l (s ++ t)]
    simp [String.length_append]
    omega

theorem renderBits_length (l : List Int) (h : ∀ x ∈ l, x = 0 ∨ x = 1) :
    (renderBits l).length = l.length := by
  rw [renderBits, String.join, foldl_append_length]
  simp only [String.length, List.map_map]
  induction l with
  | nil => simp
  | cons x xs ih =>
    have hx := h x (List.mem_cons_self x xs)
    have hxs := ih fun y hy => h y (List.mem_cons_of_mem x hy)
    have h0 : (toString (0 : Int)).length = 1 := by decide
    have h1 : (toString (1 : Int)).length = 1 := by decide
    simp only [List.length_nil] at hxs
    rcases hx with rfl | rfl <;>
      simp [List.length_cons, h0, h1] <;> omega

theorem apply_channel_error_fst_length (qubits : List Int) (er : ℚ) (st : NpState) :
    (apply_channel_error qubits er st).1.length = qubits.length := by
  simp [apply_channel_error, drawUnifVec]

theorem eveLoop_bits_length :
    ∀ (ab aB eB : List Int) (ic : List Bool) (st : NpState),
      ab.length = aB.length → aB.length = eB.length → eB.length = ic.length →
      (eveLoop ab aB eB ic st).1.length = ab.length
  | [], [], [], [], _, _, _, _ => by simp [eveLoop]
  | a :: as, b :: bs, c :: cs, d :: ds, st, h1, h2, h3 => by
    have h1' : as.length = bs.length := by simpa using h1
    have h2' : bs.length = cs.length := by simpa using h2
    have h3' : cs.length = ds.length := by simpa using h3
    by_cases hc : (d : Prop) ∧ b ≠ c
    · simp [eveLoop, hc, eveLoop_bits_length as bs cs ds _ h1' h2' h3']
    · simp [eveLoop, hc, eveLoop_bits_length as bs cs ds st h1' h2' h3']
  | [], _ :: _, _, _, _, h1, _, _ => by simp at h1
  | _ :: _, [], _, _, _, h1, _, _ => by simp at h1
  | _ :: _, _ :: _, [], _, _, _, h2, _ => by simp at h2
  | _ :: _, _ :: _, _ :: _, [], _, _, _, h3 => by simp at h3

theorem bobMeasureLoop_fst_length :
    ∀ (fs : List Int) (bms : List Bool) (st : NpState),
      fs.length = bms.length → (bobMeasureLoop fs bms st).1.length = fs.length
  | [], [], _, _ => by simp [bobMeasureLoop]
  | f :: fs, bm :: bms, st, h => by
    have h' : fs.length = bms.length := by simpa using h
    cases bm <;>
      simp [bobMeasureLoop, bobMeasureLoop_fst_length fs bms _ h']
  | [], _ :: _, _, h => by simp at h
  | _ :: _, [], _, h => by simp at h

theorem simulate_ideal_ok (n : Nat) (st : NpState) :
    ∃ r st', simulate_ideal n st = .ok (r, st') := by
  unfold simulate_ideal
  simp only [generate_random_bits, generate_random_bases, drawIntVec]
  split
  · next e heq =>
      rw [sift_key_ok] at heq
      · exact absurd heq (by simp)
      · simp
      · simp
  · next ks m heq =>
      rw [sift_key_ok] at heq
      · rw [Except.ok.injEq, Prod.mk.injEq] at heq
        obtain ⟨-, rfl⟩ := heq
        split
        · next e heq2 =>
            rw [calculate_qber_eq] at heq2
            · exact absurd heq2 (by simp)
            · simp
            · simp
        · next q heq2 => exact ⟨_, _, rfl⟩
      · simp
      · simp

theorem simulate_error_with_eve_ok (n : Nat) (er ef : ℚ) (st : NpState) :
    ∃ r st', simulate_error_with_eve n er ef st = .ok (r, st') := by
  unfold simulate_error_with_eve
  simp only [generate_random_bits, generate_random_bases, drawIntVec,
    drawUnifVec, apply_channel_error]
  split
  · next e heq =>
      rw [sift_key_ok] at heq
      · exact absurd heq (by simp)
      · simp
      · simp
  · next ks m heq =>
      rw [sift_key_ok] at heq
      · rw [Except.ok.injEq, Prod.mk.injEq] at heq
        obtain ⟨-, rfl⟩ := heq
        split
        · next e heq2 =>
            rw [calculate_qber_eq] at heq2
            · exact absurd heq2 (by simp)
            · simp
            · simp only [List.length_zipWith, List.length_map, List.length_range]
              rw [eveLoop_bits_length] <;> simp
        · next q heq2 => exact ⟨_, _, rfl⟩
      · simp
      · simp

theorem simulate_decoherence_free_ok (n : Nat) (er ef : ℚ) (st : NpState) :
    ∃ r st', simulate_decoherence_free n er ef st = .ok (r, st') := by
  unfold simulate_decoherence_free
  simp only [generate_random_bits, generate_random_bases, drawIntVec,
    drawUnifVec]
  split
  · next e heq =>
      rw [sift_key_ok] at heq
      · exact absurd heq (by simp)
      · simp
      · simp
  · next ks m heq =>
      rw [sift_key_ok] at heq
      · rw [Except.ok.injEq, Prod.mk.injEq] at heq
        obtain ⟨-, rfl⟩ := heq
        split
        · next e heq2 =>
            rw [calculate_qber_eq] at heq2
            · exact absurd heq2 (by simp)
            · simp
            · rw [eveLoop_bits_length] <;> simp
        · next q heq2 => exact ⟨_, _, rfl⟩
      · simp
      · simp

theorem simulate_detailed_ok (n : Nat) (er ef : ℚ) (sa : Bool) (st : NpState) :
    ∃ r st', simulate_detailed n er ef sa st = .ok (r, st') := by
  unfold simulate_detailed
  simp only [generate_random_bits, generate_random_bases, drawIntVec,
    drawUnifVec]
  split
  · next e heq =>
      rw [sift_key_ok] at heq
      · exact absurd heq (by simp)
      · simp
      · simp
  · next ks m heq =>
      rw [sift_key_ok] at heq
      · rw [Except.ok.injEq, Prod.mk.injEq] at heq
        obtain ⟨-, rfl⟩ := heq
        split
        · next e heq2 =>
            rw [calculate_qber_eq] at heq2
            · exact absurd heq2 (by simp)
            · simp
            · simp only [List.length_zipWith, List.length_map, List.length_range]
              rw [bobMeasureLoop_fst_length]
              · simp only [List.length_zipWith, List.length_map, List.length_range]
                rw [eveLoop_bits_length] <;> simp
              · simp only [List.length_zipWith, List.length_map, List.length_range]
                rw [eveLoop_bits_length] <;> simp
        · next q heq2 => exact ⟨_, _, rfl⟩
      · simp
      · simp

theorem simulate_error_only_ok (n : Nat) (er : ℚ) (st : NpState) :
    ∃ r st', simulate_error_only n er st = .ok (r, st') := by
  unfold simulate_error_only
  simp only [generate_random_bits, generate_random_bases, drawIntVec,
    apply_channel_error, drawUnifVec]
  split
  · next e heq =>
      rw [sift_key_ok] at heq
      · exact absurd heq (by simp)
      · simp
      · simp
  · next ks m heq =>
      rw [sift_key_ok] at heq
      · rw [Except.ok.injEq, Prod.mk.injEq] at heq
        obtain ⟨-, rfl⟩ := heq
        split
        · next e heq2 =>
            rw [calculate_qber_eq] at heq2
            · exact absurd heq2 (by simp)
            · simp
            · simp
        · next q heq2 => exact ⟨_, _, rfl⟩
      · simp
      · simp

/-- Claim C1, counterexample: calling the sifter with a `bob_bits` sequence
of a different length than the other three sequences does not fail — it
returns a sifted key and mask — because `sift_key` never touches `bob_bits`
and performs no length check, contradicting the claim that every call with
four sequences of unequal length fails with a length-mismatch error. -/
theorem claim_C1_counterexample :
    sift_key [0] [0, 1] [0] [0] = .ok ("0", [true]) ∧
      ¬(([0] : List Int).length = ([0, 1] : List Int).length) := by
  constructor
  · rfl
  · decide

/-- Claim C1, amended: `sift_key` fails (with a NumPy broadcast or
boolean-index error) whenever `alice_bits`, `alice_bases` and `bob_bases` do
not all have equal length — provided neither basis sequence has length one,
in which case NumPy broadcasting applies — but the length of `bob_bits`,
which the function never uses, is not checked at all. -/
theorem claim_C1 (alice_bits bob_bits alice_bases bob_bases : List Int)
    (hA : alice_bases.length ≠ 1) (hB : bob_bases.length ≠ 1)
    (h : ¬(alice_bits.length = alice_bases.length ∧
           alice_bases.length = bob_bases.length)) :
    ∃ e, sift_key alice_bits bob_bits alice_bases bob_bases = .error e := by
  by_cases hbase : alice_bases.length = bob_bases.length
  · have hlen : alice_bits.length ≠
        (List.zipWith (fun x y : Int => x == y) alice_bases bob_bases).length := by
      rw [List.length_zipWith, ← hbase, Nat.min_self]
      exact fun hc => h ⟨hc, hbase⟩
    simp only [sift_key, npEq_ok hbase, npBoolIndex, if_neg hlen]
    exact ⟨_, rfl⟩
  · have herr : npEq alice_bases bob_bases =
        .error "ValueError: operands could not be broadcast together" := by
      simp [npEq, hbase, hA, hB]
    simp only [sift_key, herr]
    exact ⟨_, rfl⟩

/-- Claim C1, witness for the amended theorem at a concrete shape mismatch:
`alice_bits` of length 2 against bases of lengths 2 and 3. -/
theorem claim_C1_witness :
    (([0, 0] : List Int).length ≠ 1 ∧ ([0, 0, 1] : List Int).length ≠ 1 ∧
      ¬(([0, 0] : List Int).length = ([0, 0] : List Int).length ∧
        ([0, 0] : List Int).length = ([0, 0, 1] : List Int).length)) ∧
    ∃ e, sift_key [0, 0] [] [0, 0] [0, 0, 1] = .error e :=
  ⟨⟨by decide, by decide, by decide⟩,
   claim_C1 [0, 0] [] [0, 0] [0, 0, 1] (by decide) (by decide) (by decide)⟩

/-- Claim C5: on equal-length inputs, `calculate_qber` succeeds and returns
the number of mask-true positions at which the two bit arrays disagree
divided by the number of mask-true positions; the result lies in `[0, 1]`
and is exactly `0` when no position of the mask is true. -/
theorem claim_C5 (alice_bits bob_bits : List Int) (m : List Bool)
    (h1 : alice_bits.length = m.length) (h2 : bob_bits.length = m.length) :
    calculate_qber alice_bits bob_bits m = .ok (qberValue alice_bits bob_bits m) ∧
    qberValue alice_bits bob_bits m =
      (countMismatch (maskSelect alice_bits m) (maskSelect bob_bits m) : ℚ) /
        (m.count true : ℚ) ∧
    0 ≤ qberValue alice_bits bob_bits m ∧
    qberValue alice_bits bob_bits m ≤ 1 ∧
    (m.count true = 0 → qberValue alice_bits bob_bits m = 0) := by
  refine ⟨calculate_qber_eq h1 h2, rfl, qberValue_nonneg _ _ _,
    qberValue_le_one h1 h2, fun hz => ?_⟩
  simp [qberValue, hz, div_zero]

/-- Claim C5, witness: a three-position run with two matching-basis
positions, one of which disagrees, giving QBER `1/2`. -/
theorem claim_C5_witness :
    (([0, 1, 1] : List Int).length = [true, true, false].length ∧
      ([0, 0, 0] : List Int).length = [true, true, false].length) ∧
    calculate_qber [0, 1, 1] [0, 0, 0] [true, true, false] =
      .ok (qberValue [0, 1, 1] [0, 0, 0] [true, true, false]) ∧
    qberValue [0, 1, 1] [0, 0, 0] [true, true, false] =
      (countMismatch (maskSelect [0, 1, 1] [true, true, false])
          (maskSelect [0, 0, 0] [true, true, false]) : ℚ) /
        (([true, true, false] : List Bool).count true : ℚ) ∧
    0 ≤ qberValue [0, 1, 1] [0, 0, 0] [true, true, false] ∧
    qberValue [0, 1, 1] [0, 0, 0] [true, true, false] ≤ 1 ∧
    (([true, true, false] : List Bool).count true = 0 →
      qberValue [0, 1, 1] [0, 0, 0] [true, true, false] = 0) :=
  ⟨⟨by decide, by decide⟩,
   claim_C5 [0, 1, 1] [0, 0, 0] [true, true, false] (by decide) (by decide)⟩

/-- Claim C10: when `alice_bits` and `bob_bits` have equal length and the
mask has that same length, the two masked subsequences always have equal
length (both are selected by the same mask), so the length-mismatch branch
of `compare_arrays` is unreachable and `calculate_qber` never raises. -/
theorem claim_C10 (alice_bits bob_bits : List Int) (m : List Bool)
    (h1 : alice_bits.length = m.length) (h2 : bob_bits.length = m.length) :
    (maskSelect alice_bits m).length = (maskSelect bob_bits m).length ∧
    ∃ q, calculate_qber alice_bits bob_bits m = .ok q := by
  refine ⟨?_, ⟨_, calculate_qber_eq h1 h2⟩⟩
  rw [maskSelect_length alice_bits m h1, maskSelect_length bob_bits m h2]

/-- Claim C10, witness at a concrete equal-length input. -/
theorem claim_C10_witness :
    (([1, 0] : List Int).length = [false, true].length ∧
      ([1, 1] : List Int).length = [false, true].length) ∧
    (maskSelect [1, 0] [false, true]).length =
      (maskSelect [1, 1] [false, true]).length ∧
    ∃ q, calculate_qber [1, 0] [1, 1] [false, true] = .ok q :=
  ⟨⟨by decide, by decide⟩,
   claim_C10 [1, 0] [1, 1] [false, true] (by decide) (by decide)⟩

/-- Claim C6: on inputs of common length `n` with `alice_bits` consisting of
bits, the sifter succeeds; the returned mask marks exactly the positions
where the two basis sequences agree, the returned key string is exactly
Alice's bits at those positions in order (rendered as a bit string), and its
length — the scenarios' `sifted_key_length` — equals the number of
matching-basis positions and is at most `n`. -/
theorem claim_C6 (alice_bits bob_bits alice_bases bob_bases : List Int) (n : Nat)
    (hab : alice_bits.length = n) (haB : alice_bases.length = n)
    (hbB : bob_bases.length = n)
    (hbit : ∀ x ∈ alice_bits, x = 0 ∨ x = 1) :
    sift_key alice_bits bob_bits alice_bases bob_bases =
      .ok (renderBits (maskSelect alice_bits
             (List.zipWith (fun x y : Int => x == y) alice_bases bob_bases)),
           List.zipWith (fun x y : Int => x == y) alice_bases bob_bases) ∧
    (renderBits (maskSelect alice_bits
        (List.zipWith (fun x y : Int => x == y) alice_bases bob_bases))).length =
      (List.zipWith (fun x y : Int => x == y) alice_bases bob_bases).count true ∧
    (List.zipWith (fun x y : Int => x == y) alice_bases bob_bases).count true ≤ n := by
  have hmask : alice_bits.length =
      (List.zipWith (fun x y : Int => x == y) alice_bases bob_bases).length := by
    simp [List.length_zipWith, haB, hbB, hab]
  refine ⟨sift_key_ok bob_bits (by rw [hab, haB]) (by rw [haB, hbB]), ?_, ?_⟩
  · rw [renderBits_length _ fun x hx => hbit x (mem_maskSelect _ _ x hx)]
    exact maskSelect_length _ _ hmask
  · calc (List.zipWith (fun x y : Int => x == y) alice_bases bob_bases).count true
        ≤ (List.zipWith (fun x y : Int => x == y) alice_bases bob_bases).length :=
          List.count_le_length ..
      _ = n := by simp [List.length_zipWith, haB, hbB]

/-- Claim C6, witness: a concrete two-qubit sift with one matching basis. -/
theorem claim_C6_witness :
    (([1, 0] : List Int).length = 2 ∧ ([0, 0] : List Int).length = 2 ∧
      ([0, 1] : List Int).length = 2 ∧
      ∀ x ∈ ([1, 0] : List Int), x = 0 ∨ x = 1) ∧
    sift_key [1, 0] [1, 1] [0, 0] [0, 1] =
      .ok (renderBits (maskSelect [1, 0]
             (List.zipWith (fun x y : Int => x == y) [0, 0] [0, 1])),
           List.zipWith (fun x y : Int => x == y) [0, 0] [0, 1]) ∧
    (renderBits (maskSelect [1, 0]
        (List.zipWith (fun x y : Int => x == y) [0, 0] [0, 1]))).length =
      (List.zipWith (fun x y : Int => x == y) [0, 0] [0, 1]).count true ∧
    (List.zipWith (fun x y : Int => x == y) [0, 0] [0, 1]).count true ≤ 2 :=
  ⟨⟨by decide, by decide, by decide, by decide⟩,
   claim_C6 [1, 0] [1, 1] [0, 0] [0, 1] 2 (by decide) (by decide) (by decide)
     (by decide)⟩

/-- Claim C7, counterexample: `simulate_error_only` invoked with the
out-of-range parameters `qubit_count = 2` (below the request model's minimum
of 10) and `error_rate = 2` (above `0.5`) is not rejected: it returns a
result (with the out-of-range rate stored unmodified) after consuming six
integer draws and two uniform draws of randomness. -/
theorem claim_C7_counterexample :
    ∃ r st', simulate_error_only 2 2 npZeroState = .ok (r, st') ∧
      ¬((2 : ℚ) ≤ 0.5) ∧ st'.ipos = 6 ∧ st'.upos = 2 ∧ r.error_rate = 2 := by
  refine ⟨_, _, rfl, by norm_num, by decide, by decide, by norm_num⟩

/-- Claim C7, amended: range validation of `qubit_count`, `error_rate` and
`eve_fraction` is performed only by the pydantic request model
(`SimulationRequest`), which accepts a request exactly when all three lie in
their declared ranges; none of the five scenario functions performs any
validation — every one of them succeeds, consuming randomness, on any
parameters whatsoever. -/
theorem claim_C7 :
    (∀ (qc : Int) (er ef : ℚ),
       SimulationRequest.validate qc er ef = .ok () ↔
         (10 ≤ qc ∧ qc ≤ 1000 ∧ 0 ≤ er ∧ er ≤ 0.5 ∧ 0 ≤ ef ∧ ef ≤ 1)) ∧
    (∀ (n : Nat) (st : NpState),
       ∃ r st', simulate_ideal n st = .ok (r, st')) ∧
    (∀ (n : Nat) (er : ℚ) (st : NpState),
       ∃ r st', simulate_error_only n er st = .ok (r, st')) ∧
    (∀ (n : Nat) (er ef : ℚ) (st : NpState),
       ∃ r st', simulate_error_with_eve n er ef st = .ok (r, st')) ∧
    (∀ (n : Nat) (er ef : ℚ) (st : NpState),
       ∃ r st', simulate_decoherence_free n er ef st = .ok (r, st')) ∧
    (∀ (n : Nat) (er ef : ℚ) (sa : Bool) (st : NpState),
       ∃ r st', simulate_detailed n er ef sa st = .ok (r, st')) := by
  refine ⟨fun qc er ef => ?_, fun n st => simulate_ideal_ok n st,
    fun n er st => simulate_error_only_ok n er st,
    fun n er ef st => simulate_error_with_eve_ok n er ef st,
    fun n er ef st => simulate_decoherence_free_ok n er ef st,
    fun n er ef sa st => simulate_detailed_ok n er ef sa st⟩
  have hstep : SimulationRequest.validate qc er ef = .ok () ↔
      (¬ qc < 10 ∧ ¬ 1000 < qc ∧ ¬ er < 0 ∧ ¬ (0.5 : ℚ) < er ∧
        ¬ ef < 0 ∧ ¬ (1 : ℚ) < ef) := by
    unfold SimulationRequest.validate
    split_ifs with h1 h2 h3 h4 h5 h6 <;> simp_all
  rw [hstep]
  simp [not_lt]

/-- Claim C2, counterexample: a valid Error-with-Eve input (`qubit_count = 8`,
`error_rate = 0.5`, `eve_fraction = 0`) whose measured QBER is `1/8 = 0.125`,
which is at least the claimed uniform threshold `0.11`, yet the scenario's
security verdict is `"Potentially secure"`, not `"Compromised"`: this
scenario classifies by a `0.15` cutoff, not `0.11`. -/
theorem claim_C2_counterexample :
    ∃ r st', simulate_error_with_eve 8 (1 / 2) 0 npOneFlipState = .ok (r, st') ∧
      r.qber = 1 / 8 ∧ (0.11 : ℚ) ≤ 1 / 8 ∧ ((1 : ℚ) / 2) ≤ 0.5 ∧
      r.summary.security_level = "Potentially secure" ∧
      r.summary.security_level ≠ "Compromised" := by
  have hrun : simulate_error_with_eve 8 (1 / 2) 0 npOneFlipState =
      .ok ({ scenario := "error-eve", qubit_count := 8, sifted_key := "00000000",
             sifted_key_length := 8, qber := 1 / 8, error_rate := 1 / 2,
             eve_fraction := 0,
             summary :=
               { total_qubits := 8, matching_bases := 8, sifted_key_length := 8,
                 channel_error_rate := 1 / 2, eve_fraction := 0,
                 expected_qber := 1 / 2, actual_qber := 1 / 8,
                 eve_detected := false,
                 protocol_status := "Eavesdropping may be present",
                 security_level := "Potentially secure" } },
           { npOneFlipState with ipos := 32, upos := 16 }) := by
    have ht0 : toString (0 : Int) = "0" := by decide
    have hl0 : ("0" : String).length = 1 := by decide
    have happ : ("0" ++ "0" ++ "0" ++ "0" ++ "0" ++ "0" ++ "0" ++ "0" : String) =
        "00000000" := by decide
    have hl8 : ("00000000" : String).length = 8 := by decide
    norm_num [ht0, hl0, happ, hl8, simulate_error_with_eve, generate_random_bits,
      generate_random_bases, drawIntVec, drawUnifVec, drawUnif1,
      apply_channel_error, eveLoop, npOneFlipState, List.range_succ, sift_key,
      npEq, npBoolIndex, maskSelect, calculate_qber, compare_arrays,
      countMismatch, renderBits, truncKey, String.join, EveResult.mk.injEq,
      EveSummary.mk.injEq, Prod.mk.injEq, NpState.mk.injEq]
  refine ⟨_, _, hrun, by norm_num, by norm_num, by norm_num, by norm_num,
    by decide⟩

/-- Claim C2, amended: the `0.11` threshold governs only the `main.py`
endpoints — `/run_bb84`'s and `/stats`' `secure` flag is true exactly when
the measured QBER is below `0.11` — while `simulate_error_with_eve` labels
its `security_level` `"Compromised"` exactly when QBER exceeds `0.15` (and
sets `eve_detected` exactly when QBER exceeds `error_rate + 0.1`), and
`simulate_decoherence_free` sets `eve_detected` exactly when QBER exceeds
`0.1` and bases its `security_level` on `eve_fraction` alone, not on QBER. -/
theorem claim_C2 :
    (∀ (n : Nat) (r : BB84Results),
       ((run_bb84_summary n r).secure = true ↔ r.qber < 0.11) ∧
       ((get_stats_response r).secure = true ↔ r.qber < 0.11) ∧
       (get_stats_response r).security_threshold = 0.11) ∧
    (∀ (n : Nat) (er ef : ℚ) (st : NpState) (r : EveResult) (st' : NpState),
       simulate_error_with_eve n er ef st = .ok (r, st') →
         ((r.summary.security_level = "Compromised" ↔ r.qber > 0.15) ∧
          (r.summary.eve_detected = true ↔ r.qber > er + 0.1))) ∧
    (∀ (n : Nat) (er ef : ℚ) (st : NpState) (r : DecoResult) (st' : NpState),
       simulate_decoherence_free n er ef st = .ok (r, st') →
         ((r.summary.eve_detected = true ↔ r.qber > 0.1) ∧
          (r.summary.security_level =
             "Protected from noise, vulnerable to eavesdropping" ↔ ef > 0))) := by
  refine ⟨fun n r => ⟨?_, ?_, rfl⟩, fun n er ef st r st' h => ?_,
    fun n er ef st r st' h => ?_⟩
  · simp [run_bb84_summary]
  · simp [get_stats_response]
  · unfold simulate_error_with_eve at h
    simp only [generate_random_bits, generate_random_bases, drawIntVec,
      drawUnifVec, apply_channel_error] at h
    split at h
    · exact absurd h (by simp)
    · split at h
      · exact absurd h (by simp)
      · rw [Except.ok.injEq, Prod.mk.injEq] at h
        obtain ⟨rfl, -⟩ := h
        constructor
        · dsimp only
          split_ifs with hq
          · simp [hq]
          · simp only [hq, iff_false]
            intro hcontra
            exact absurd hcontra (by decide)
        · simp
  · unfold simulate_decoherence_free at h
    simp only [generate_random_bits, generate_random_bases, drawIntVec,
      drawUnifVec] at h
    split at h
    · exact absurd h (by simp)
    · split at h
      · exact absurd h (by simp)
      · rw [Except.ok.injEq, Prod.mk.injEq] at h
        obtain ⟨rfl, -⟩ := h
        constructor
        · simp
        · dsimp only
          split_ifs with hq
          · simp [hq]
          · simp only [hq, iff_false]
            intro hcontra
            exact absurd hcontra (by decide)

/-- Claim C2, witness: the amended characterizations applied to concrete
one-qubit Error-with-Eve and Decoherence-Free runs. -/
theorem claim_C2_witness :
    (∃ r st', simulate_error_with_eve 1 0 0 npZeroState = .ok (r, st') ∧
       ((r.summary.security_level = "Compromised" ↔ r.qber > 0.15) ∧
        (r.summary.eve_detected = true ↔ r.qber > 0 + 0.1))) ∧
    (∃ r st', simulate_decoherence_free 1 0 0 npZeroState = .ok (r, st') ∧
       ((r.summary.eve_detected = true ↔ r.qber > 0.1) ∧
        (r.summary.security_level =
           "Protected from noise, vulnerable to eavesdropping" ↔ (0 : ℚ) > 0))) := by
  have ht0 : toString (0 : Int) = "0" := by decide
  have hl0 : ("0" : String).length = 1 := by decide
  have heve : simulate_error_with_eve 1 0 0 npZeroState =
      .ok ({ scenario := "error-eve", qubit_count := 1, sifted_key := "0",
             sifted_key_length := 1, qber := 0, error_rate := 0, eve_fraction := 0,
             summary :=
               { total_qubits := 1, matching_bases := 1, sifted_key_length := 1,
                 channel_error_rate := 0, eve_fraction := 0, expected_qber := 0,
                 actual_qber := 0, eve_detected := false,
                 protocol_status := "Eavesdropping may be present",
                 security_level := "Potentially secure" } },
           { npZeroState with ipos := 4, upos := 2 }) := by
    norm_num [ht0, hl0, simulate_error_with_eve, generate_random_bits,
      generate_random_bases, drawIntVec, drawUnifVec, drawUnif1,
      apply_channel_error, eveLoop, npZeroState, List.range_succ, sift_key,
      npEq, npBoolIndex, maskSelect, calculate_qber, compare_arrays,
      countMismatch, renderBits, truncKey, String.join, EveResult.mk.injEq,
      EveSummary.mk.injEq, Prod.mk.injEq, NpState.mk.injEq]
  have hdeco : simulate_decoherence_free 1 0 0 npZeroState =
      .ok ({ scenario := "decoherence-free", qubit_count := 1, sifted_key := "0",
             sifted_key_length := 1, qber := 0, error_rate := 0, eve_fraction := 0,
             summary :=
               { total_qubits := 1, matching_bases := 1, sifted_key_length := 1,
                 decoherence_factor := 0, eve_fraction := 0, expected_qber := 0,
                 actual_qber := 0, eve_detected := false,
                 quantum_coherence := "Preserved from environmental noise",
                 protocol_status :=
                   "Environmental decoherence eliminated, but Eve detection possible",
                 security_level := "Maximum security (no eavesdropping)" } },
           { npZeroState with ipos := 4, upos := 1 }) := by
    norm_num [ht0, hl0, simulate_decoherence_free, generate_random_bits,
      generate_random_bases, drawIntVec, drawUnifVec, drawUnif1, eveLoop,
      npZeroState, List.range_succ, sift_key, npEq, npBoolIndex, maskSelect,
      calculate_qber, compare_arrays, countMismatch, renderBits, truncKey,
      String.join, DecoResult.mk.injEq, DecoSummary.mk.injEq, Prod.mk.injEq,
      NpState.mk.injEq]
  exact ⟨⟨_, _, heve, claim_C2.2.1 1 0 0 npZeroState _ _ heve⟩,
         ⟨_, _, hdeco, claim_C2.2.2 1 0 0 npZeroState _ _ hdeco⟩⟩

theorem eve_expected_qber {n : Nat} {er ef : ℚ} {st : NpState} {r : EveResult}
    {st' : NpState} (h : simulate_error_with_eve n er ef st = .ok (r, st')) :
    r.summary.expected_qber = er + 0.25 * ef := by
  unfold simulate_error_with_eve at h
  simp only [generate_random_bits, generate_random_bases, drawIntVec,
    drawUnifVec, apply_channel_error] at h
  split at h
  · exact absurd h (by simp)
  · split at h
    · exact absurd h (by simp)
    · rw [Except.ok.injEq, Prod.mk.injEq] at h
      obtain ⟨rfl, -⟩ := h
      rfl

/-- Claim C4: in every Error-with-Eve run the reported expected QBER equals
exactly `error_rate + 0.25 × eve_fraction`; holding `error_rate` fixed it is
non-decreasing in `eve_fraction` across runs, and a run with
`error_rate = 0` and `eve_fraction = 1` reports expected QBER exactly
`0.25`. -/
theorem claim_C4 :
    (∀ (n : Nat) (er ef : ℚ) (st : NpState) (r : EveResult) (st' : NpState),
       simulate_error_with_eve n er ef st = .ok (r, st') →
         r.summary.expected_qber = er + 0.25 * ef) ∧
    (∀ (n₁ n₂ : Nat) (er ef₁ ef₂ : ℚ) (st₁ st₂ : NpState)
       (r₁ r₂ : EveResult) (st₁' st₂' : NpState),
       simulate_error_with_eve n₁ er ef₁ st₁ = .ok (r₁, st₁') →
       simulate_error_with_eve n₂ er ef₂ st₂ = .ok (r₂, st₂') →
       ef₁ ≤ ef₂ → r₁.summary.expected_qber ≤ r₂.summary.expected_qber) ∧
    (∀ (n : Nat) (st : NpState) (r : EveResult) (st' : NpState),
       simulate_error_with_eve n 0 1 st = .ok (r, st') →
         r.summary.expected_qber = 0.25) := by
  refine ⟨fun n er ef st r st' h => eve_expected_qber h,
    fun n₁ n₂ er ef₁ ef₂ st₁ st₂ r₁ r₂ st₁' st₂' h₁ h₂ hle => ?_,
    fun n st r st' h => ?_⟩
  · rw [eve_expected_qber h₁, eve_expected_qber h₂]
    have : (0 : ℚ) ≤ 0.25 := by norm_num
    nlinarith
  · rw [eve_expected_qber h]
    norm_num

/-- Claim C4, witness: concrete one-qubit runs with `eve_fraction` `0` and
`1`. -/
theorem claim_C4_witness :
    ∃ r₁ st₁' r₂ st₂',
      simulate_error_with_eve 1 0 0 npZeroState = .ok (r₁, st₁') ∧
      simulate_error_with_eve 1 0 1 npZeroState = .ok (r₂, st₂') ∧
      r₁.summary.expected_qber = 0 + 0.25 * 0 ∧
      r₁.summary.expected_qber ≤ r₂.summary.expected_qber ∧
      r₂.summary.expected_qber = 0.25 := by
  have ht0 : toString (0 : Int) = "0" := by decide
  have hl0 : ("0" : String).length = 1 := by decide
  have h₁ : simulate_error_with_eve 1 0 0 npZeroState =
      .ok ({ scenario := "error-eve", qubit_count := 1, sifted_key := "0",
             sifted_key_length := 1, qber := 0, error_rate := 0, eve_fraction := 0,
             summary :=
               { total_qubits := 1, matching_bases := 1, sifted_key_length := 1,
                 channel_error_rate := 0, eve_fraction := 0, expected_qber := 0,
                 actual_qber := 0, eve_detected := false,
                 protocol_status := "Eavesdropping may be present",
                 security_level := "Potentially secure" } },
           { npZeroState with ipos := 4, upos := 2 }) := by
    norm_num [ht0, hl0, simulate_error_with_eve, generate_random_bits,
      generate_random_bases, drawIntVec, drawUnifVec, drawUnif1,
      apply_channel_error, eveLoop, npZeroState, List.range_succ, sift_key,
      npEq, npBoolIndex, maskSelect, calculate_qber, compare_arrays,
      countMismatch, renderBits, truncKey, String.join, EveResult.mk.injEq,
      EveSummary.mk.injEq, Prod.mk.injEq, NpState.mk.injEq]
  have h₂ : simulate_error_with_eve 1 0 1 npZeroState =
      .ok ({ scenario := "error-eve", qubit_count := 1, sifted_key := "0",
             sifted_key_length := 1, qber := 0, error_rate := 0, eve_fraction := 1,
             summary :=
               { total_qubits := 1, matching_bases := 1, sifted_key_length := 1,
                 channel_error_rate := 0, eve_fraction := 1, expected_qber := 0.25,
                 actual_qber := 0, eve_detected := false,
                 protocol_status := "Eavesdropping may be present",
                 security_level := "Potentially secure" } },
           { npZeroState with ipos := 4, upos := 2 }) := by
    norm_num [ht0, hl0, simulate_error_with_eve, generate_random_bits,
      generate_random_bases, drawIntVec, drawUnifVec, drawUnif1,
      apply_channel_error, eveLoop, npZeroState, List.range_succ, sift_key,
      npEq, npBoolIndex, maskSelect, calculate_qber, compare_arrays,
      countMismatch, renderBits, truncKey, String.join, EveResult.mk.injEq,
      EveSummary.mk.injEq, Prod.mk.injEq, NpState.mk.injEq]
  refine ⟨_, _, _, _, h₁, h₂, claim_C4.1 1 0 0 npZeroState _ _ h₁,
    claim_C4.2.1 1 1 0 0 1 npZeroState npZeroState _ _ _ _ h₁ h₂ (by norm_num),
    claim_C4.2.2 1 npZeroState _ _ h₂⟩

/-- Claim C9, counterexample: in a Detailed run with `eve_fraction = 0` the
single transmission record has `eve_intercepted = false` and yet its
`eve_basis` is defined (it is `"Z"`): the source expression
`"Z" if eve_bases[i] == 0 else "X" if eve_fraction > 0 else None` yields
`"Z"` whenever Eve's basis draw is `Z`, regardless of interception. -/
theorem claim_C9_counterexample :
    ∃ r st' q, simulate_detailed 1 0 0 false npZeroState = .ok (r, st') ∧
      r.qubits = [q] ∧ q.eve_intercepted = false ∧ q.eve_basis = some "Z" := by
  have ht0 : toString (0 : Int) = "0" := by decide
  have hl0 : ("0" : String).length = 1 := by decide
  have hrun : simulate_detailed 1 0 0 false npZeroState =
      .ok ({ scenario := "detailed", qubit_count := 1,
             qubits := [{ index := 0, alice_bit := 0, alice_basis := "Z",
                          alice_state := "|0⟩", eve_intercepted := false,
                          eve_basis := some "Z", eve_measured := none,
                          eve_caused_error := false, bob_basis := "Z",
                          bob_measured := 0, bases_match := true,
                          bits_match := true, channel_error := false,
                          kept_in_key := true }],
             sifted_key := "0", sifted_key_length := 1, qber := 0,
             error_rate := 0, eve_fraction := 0,
             summary :=
               { total_qubits := 1, matching_bases := 1, non_matching_bases := 0,
                 correct_when_bases_match := 1,
                 correct_when_bases_dont_match := 0, eve_interceptions := 0,
                 eve_caused_errors := 0, channel_errors := 0,
                 sifted_key_length := 1, qber := 0 } },
           { npZeroState with ipos := 4, upos := 2 }) := by
    norm_num [ht0, hl0, simulate_detailed, generate_random_bits,
      generate_random_bases, drawIntVec, drawUnifVec, drawUnif1, drawInt1,
      eveLoop, bobMeasureLoop, mkQubitInfo, get_quantum_state, npZeroState,
      List.range_succ, sift_key, npEq, npBoolIndex, maskSelect, calculate_qber,
      compare_arrays, countMismatch, renderBits, truncKey, String.join,
      DetailedResult.mk.injEq, DetailedSummary.mk.injEq, QubitInfo.mk.injEq,
      Prod.mk.injEq, NpState.mk.injEq]
  exact ⟨_, _, _, hrun, rfl, rfl, rfl⟩

/-- Claim C9, amended: `eve_basis` does not track `eve_intercepted` at all:
whenever `eve_fraction > 0`, every transmission record's `eve_basis` is
defined (non-null), for intercepted and non-intercepted positions alike (and
with `eve_fraction = 0` it is still `"Z"` at every position whose Eve basis
draw is `Z`, as the counterexample shows). -/
theorem claim_C9 (n : Nat) (er ef : ℚ) (sa : Bool) (st : NpState)
    (r : DetailedResult) (st' : NpState)
    (h : simulate_detailed n er ef sa st = .ok (r, st')) (hef : ef > 0) :
    ∀ q ∈ r.qubits, q.eve_basis.isSome := by
  unfold simulate_detailed at h
  simp only [generate_random_bits, generate_random_bases, drawIntVec,
    drawUnifVec] at h
  split at h
  · exact absurd h (by simp)
  · split at h
    · exact absurd h (by simp)
    · rw [Except.ok.injEq, Prod.mk.injEq] at h
      obtain ⟨rfl, -⟩ := h
      intro q hq
      simp only [List.mem_map] at hq
      obtain ⟨i, -, rfl⟩ := hq
      unfold mkQubitInfo
      dsimp only
      split_ifs <;> rfl

/-- Claim C9, witness for the amended theorem: a one-qubit Detailed run with
`eve_fraction = 1`. -/
theorem claim_C9_witness :
    ∃ r st', simulate_detailed 1 0 1 false npZeroState = .ok (r, st') ∧
      (1 : ℚ) > 0 ∧ ∀ q ∈ r.qubits, q.eve_basis.isSome := by
  have ht0 : toString (0 : Int) = "0" := by decide
  have hl0 : ("0" : String).length = 1 := by decide
  have hrun : simulate_detailed 1 0 1 false npZeroState =
      .ok ({ scenario := "detailed", qubit_count := 1,
             qubits := [{ index := 0, alice_bit := 0, alice_basis := "Z",
                          alice_state := "|0⟩", eve_intercepted := true,
                          eve_basis := some "Z", eve_measured := some 0,
                          eve_caused_error := false, bob_basis := "Z",
                          bob_measured := 0, bases_match := true,
                          bits_match := true, channel_error := false,
                          kept_in_key := true }],
             sifted_key := "0", sifted_key_length := 1, qber := 0,
             error_rate := 0, eve_fraction := 1,
             summary :=
               { total_qubits := 1, matching_bases := 1, non_matching_bases := 0,
                 correct_when_bases_match := 1,
                 correct_when_bases_dont_match := 0, eve_interceptions := 1,
                 eve_caused_errors := 0, channel_errors := 0,
                 sifted_key_length := 1, qber := 0 } },
           { npZeroState with ipos := 4, upos := 2 }) := by
    norm_num [ht0, hl0, simulate_detailed, generate_random_bits,
      generate_random_bases, drawIntVec, drawUnifVec, drawUnif1, drawInt1,
      eveLoop, bobMeasureLoop, mkQubitInfo, get_quantum_state, npZeroState,
      List.range_succ, sift_key, npEq, npBoolIndex, maskSelect, calculate_qber,
      compare_arrays, countMismatch, renderBits, truncKey, String.join,
      DetailedResult.mk.injEq, DetailedSummary.mk.injEq, QubitInfo.mk.injEq,
      Prod.mk.injEq, NpState.mk.injEq]
  exact ⟨_, _, hrun, by norm_num,
    claim_C9 1 0 1 false npZeroState _ _ hrun (by norm_num)⟩

theorem eveLoop_state_preserves :
    ∀ (ab aB eB : List Int) (ic : List Bool) (st : NpState),
      (eveLoop ab aB eB ic st).2.2.ints = st.ints ∧
      (eveLoop ab aB eB ic st).2.2.ipos = st.ipos
  | a :: as, b :: bs, c :: cs, d :: ds, st => by
    by_cases hc : (d : Prop) ∧ b ≠ c <;>
      simp [eveLoop, hc, drawUnif1, eveLoop_state_preserves as bs cs ds]
  | [], aB, eB, ic, st => by cases aB <;> cases eB <;> cases ic <;> exact ⟨rfl, rfl⟩
  | _ :: _, [], eB, ic, st => by cases eB <;> cases ic <;> exact ⟨rfl, rfl⟩
  | _ :: _, _ :: _, [], ic, st => by cases ic <;> exact ⟨rfl, rfl⟩
  | _ :: _, _ :: _, _ :: _, [], st => ⟨rfl, rfl⟩

theorem eveLoop_state_ints (ab aB eB : List Int) (ic : List Bool) (st : NpState) :
    (eveLoop ab aB eB ic st).2.2.ints = st.ints :=
  (eveLoop_state_preserves ab aB eB ic st).1

theorem eveLoop_state_ipos (ab aB eB : List Int) (ic : List Bool) (st : NpState) :
    (eveLoop ab aB eB ic st).2.2.ipos = st.ipos :=
  (eveLoop_state_preserves ab aB eB ic st).2

theorem simulate_detailed_showall_shape (n : Nat) (er ef : ℚ) (st : NpState) :
    ∃ r st', simulate_detailed n er ef true st = .ok (r, st') ∧
      r.sifted_key = renderBits (maskSelect
        ((List.range n).map fun k => st.ints (st.ipos + k) % 2)
        (List.zipWith (fun x y => x == y)
          ((List.range n).map fun k => st.ints (st.ipos + n + k) % 2)
          ((List.range n).map fun k => st.ints (st.ipos + n + n + n + k) % 2))) ∧
      r.sifted_key_length = r.sifted_key.length := by
  unfold simulate_detailed
  simp only [reduceIte, generate_random_bits, generate_random_bases, drawIntVec,
    drawUnifVec, eveLoop_state_ints, eveLoop_state_ipos]
  split
  · next e heq =>
      rw [sift_key_ok] at heq
      · exact absurd heq (by simp)
      · simp
      · simp
  · next ks m heq =>
      rw [sift_key_ok] at heq
      · rw [Except.ok.injEq, Prod.mk.injEq] at heq
        obtain ⟨rfl, rfl⟩ := heq
        split
        · next e heq2 =>
            rw [calculate_qber_eq] at heq2
            · exact absurd heq2 (by simp)
            · simp
            · simp only [List.length_zipWith, List.length_map, List.length_range]
              rw [bobMeasureLoop_fst_length]
              · simp only [List.length_zipWith, List.length_map, List.length_range]
                rw [eveLoop_bits_length] <;> simp
              · simp only [List.length_zipWith, List.length_map, List.length_range]
                rw [eveLoop_bits_length] <;> simp
        · next q heq2 => exact ⟨_, _, rfl, rfl, rfl⟩
      · simp
      · simp

set_option maxRecDepth 40000 in
/-- Claim C8, counterexample: a Detailed run over 202 qubits (with
`show_all` set) whose sifted key is 202 characters long is returned
untruncated — the `sifted_key` field is not of the
`first 100 characters ++ "..."` form the claim requires for keys longer
than 100 characters.  Only the other four scenarios truncate. -/
theorem claim_C8_counterexample :
    ∃ r st', simulate_detailed 202 0 0 true npZeroState = .ok (r, st') ∧
      100 < r.sifted_key.length ∧ truncKey r.sifted_key ≠ r.sifted_key := by
  obtain ⟨r, st', hok, hkey, -⟩ := simulate_detailed_showall_shape 202 0 0 npZeroState
  refine ⟨r, st', hok, ?_, ?_⟩
  · rw [hkey]
    decide
  · rw [hkey]
    decide

/-- Claim C8, amended: the Ideal, Error-Only, Error-with-Eve and
Decoherence-Free records render the sifted key truncated to its first 100
characters plus an ellipsis marker exactly when the full key exceeds 100
characters (with `sifted_key_length` always the full key's length), and all
five records carry the scenario's error rate and eve fraction; the Detailed
record, however, returns the sifted key untruncated (its rendered key always
has the full `sifted_key_length`). -/
theorem claim_C8 :
    (∀ (n : Nat) (st : NpState) (r : IdealResult) (st' : NpState),
       simulate_ideal n st = .ok (r, st') →
         (∃ full, r.sifted_key = truncKey full ∧ r.sifted_key_length = full.length) ∧
         r.error_rate = 0 ∧ r.eve_fraction = 0) ∧
    (∀ (n : Nat) (er : ℚ) (st : NpState) (r : ErrorOnlyResult) (st' : NpState),
       simulate_error_only n er st = .ok (r, st') →
         (∃ full, r.sifted_key = truncKey full ∧ r.sifted_key_length = full.length) ∧
         r.error_rate = er ∧ r.eve_fraction = 0) ∧
    (∀ (n : Nat) (er ef : ℚ) (st : NpState) (r : EveResult) (st' : NpState),
       simulate_error_with_eve n er ef st = .ok (r, st') →
         (∃ full, r.sifted_key = truncKey full ∧ r.sifted_key_length = full.length) ∧
         r.error_rate = er ∧ r.eve_fraction = ef) ∧
    (∀ (n : Nat) (er ef : ℚ) (st : NpState) (r : DecoResult) (st' : NpState),
       simulate_decoherence_free n er ef st = .ok (r, st') →
         (∃ full, r.sifted_key = truncKey full ∧ r.sifted_key_length = full.length) ∧
         r.error_rate = er ∧ r.eve_fraction = ef) ∧
    (∀ (n : Nat) (er ef : ℚ) (sa : Bool) (st : NpState) (r : DetailedResult)
       (st' : NpState),
       simulate_detailed n er ef sa st = .ok (r, st') →
         r.sifted_key.length = r.sifted_key_length ∧
         r.error_rate = er ∧ r.eve_fraction = ef) := by
  refine ⟨fun n st r st' h => ?_, fun n er st r st' h => ?_,
    fun n er ef st r st' h => ?_, fun n er ef st r st' h => ?_,
    fun n er ef sa st r st' h => ?_⟩
  · unfold simulate_ideal at h
    simp only [generate_random_bits, generate_random_bases, drawIntVec,
      drawUnifVec, apply_channel_error] at h
    split at h
    · exact absurd h (by simp)
    · split at h
      · exact absurd h (by simp)
      · rw [Except.ok.injEq, Prod.mk.injEq] at h
        obtain ⟨rfl, -⟩ := h
        exact ⟨⟨_, rfl, rfl⟩, rfl, rfl⟩
  · unfold simulate_error_only at h
    simp only [generate_random_bits, generate_random_bases, drawIntVec,
      drawUnifVec, apply_channel_error] at h
    split at h
    · exact absurd h (by simp)
    · split at h
      · exact absurd h (by simp)
      · rw [Except.ok.injEq, Prod.mk.injEq] at h
        obtain ⟨rfl, -⟩ := h
        exact ⟨⟨_, rfl, rfl⟩, rfl, rfl⟩
  · unfold simulate_error_with_eve at h
    simp only [generate_random_bits, generate_random_bases, drawIntVec,
      drawUnifVec, apply_channel_error] at h
    split at h
    · exact absurd h (by simp)
    · split at h
      · exact absurd h (by simp)
      · rw [Except.ok.injEq, Prod.mk.injEq] at h
        obtain ⟨rfl, -⟩ := h
        exact ⟨⟨_, rfl, rfl⟩, rfl, rfl⟩
  · unfold simulate_decoherence_free at h
    simp only [generate_random_bits, generate_random_bases, drawIntVec,
      drawUnifVec, apply_channel_error] at h
    split at h
    · exact absurd h (by simp)
    · split at h
      · exact absurd h (by simp)
      · rw [Except.ok.injEq, Prod.mk.injEq] at h
        obtain ⟨rfl, -⟩ := h
        exact ⟨⟨_, rfl, rfl⟩, rfl, rfl⟩
  · unfold simulate_detailed at h
    simp only [generate_random_bits, generate_random_bases, drawIntVec,
      drawUnifVec, apply_channel_error] at h
    split at h
    · exact absurd h (by simp)
    · split at h
      · exact absurd h (by simp)
      · rw [Except.ok.injEq, Prod.mk.injEq] at h
        obtain ⟨rfl, -⟩ := h
        exact ⟨rfl, rfl, rfl⟩

/-- Claim C8, witness: the amended record properties at concrete one-qubit
runs of all five scenarios. -/
theorem claim_C8_witness :
    (∃ r st', simulate_ideal 1 npZeroState = .ok (r, st') ∧
       (∃ full, r.sifted_key = truncKey full ∧ r.sifted_key_length = full.length) ∧
       r.error_rate = 0 ∧ r.eve_fraction = 0) ∧
    (∃ r st', simulate_error_only 1 0 npZeroState = .ok (r, st') ∧
       (∃ full, r.sifted_key = truncKey full ∧ r.sifted_key_length = full.length) ∧
       r.error_rate = 0 ∧ r.eve_fraction = 0) ∧
    (∃ r st', simulate_error_with_eve 1 0 0 npZeroState = .ok (r, st') ∧
       (∃ full, r.sifted_key = truncKey full ∧ r.sifted_key_length = full.length) ∧
       r.error_rate = 0 ∧ r.eve_fraction = 0) ∧
    (∃ r st', simulate_decoherence_free 1 0 0 npZeroState = .ok (r, st') ∧
       (∃ full, r.sifted_key = truncKey full ∧ r.sifted_key_length = full.length) ∧
       r.error_rate = 0 ∧ r.eve_fraction = 0) ∧
    (∃ r st', simulate_detailed 1 0 0 false npZeroState = .ok (r, st') ∧
       r.sifted_key.length = r.sifted_key_length ∧
       r.error_rate = 0 ∧ r.eve_fraction = 0) := by
  have ht0 : toString (0 : Int) = "0" := by decide
  have hl0 : ("0" : String).length = 1 := by decide
  have heve : simulate_error_with_eve 1 0 0 npZeroState =
      .ok ({ scenario := "error-eve", qubit_count := 1, sifted_key := "0",
             sifted_key_length := 1, qber := 0, error_rate := 0, eve_fraction := 0,
             summary :=
               { total_qubits := 1, matching_bases := 1, sifted_key_length := 1,
                 channel_error_rate := 0, eve_fraction := 0, expected_qber := 0,
                 actual_qber := 0, eve_detected := false,
                 protocol_status := "Eavesdropping may be present",
                 security_level := "Potentially secure" } },
           { npZeroState with ipos := 4, upos := 2 }) := by
    norm_num [ht0, hl0, simulate_error_with_eve, generate_random_bits,
      generate_random_bases, drawIntVec, drawUnifVec, drawUnif1,
      apply_channel_error, eveLoop, npZeroState, List.range_succ, sift_key,
      npEq, npBoolIndex, maskSelect, calculate_qber, compare_arrays,
      countMismatch, renderBits, truncKey, String.join, EveResult.mk.injEq,
      EveSummary.mk.injEq, Prod.mk.injEq, NpState.mk.injEq]
  have hdeco : simulate_decoherence_free 1 0 0 npZeroState =
      .ok ({ scenario := "decoherence-free", qubit_count := 1, sifted_key := "0",
             sifted_key_length := 1, qber := 0, error_rate := 0, eve_fraction := 0,
             summary :=
               { total_qubits := 1, matching_bases := 1, sifted_key_length := 1,
                 decoherence_factor := 0, eve_fraction := 0, expected_qber := 0,
                 actual_qber := 0, eve_detected := false,
                 quantum_coherence := "Preserved from environmental noise",
                 protocol_status :=
                   "Environmental decoherence eliminated, but Eve detection possible",
                 security_level := "Maximum security (no eavesdropping)" } },
           { npZeroState with ipos := 4, upos := 1 }) := by
    norm_num [ht0, hl0, simulate_decoherence_free, generate_random_bits,
      generate_random_bases, drawIntVec, drawUnifVec, drawUnif1, eveLoop,
      npZeroState, List.range_succ, sift_key, npEq, npBoolIndex, maskSelect,
      calculate_qber, compare_arrays, countMismatch, renderBits, truncKey,
      String.join, DecoResult.mk.injEq, DecoSummary.mk.injEq, Prod.mk.injEq,
      NpState.mk.injEq]
  have hdet : ∃ r st', simulate_detailed 1 0 0 false npZeroState = .ok (r, st') := by
    have hrun : simulate_detailed 1 0 0 false npZeroState =
        .ok ({ scenario := "detailed", qubit_count := 1,
               qubits := [{ index := 0, alice_bit := 0, alice_basis := "Z",
                            alice_state := "|0⟩", eve_intercepted := false,
                            eve_basis := some "Z", eve_measured := none,
                            eve_caused_error := false, bob_basis := "Z",
                            bob_measured := 0, bases_match := true,
                            bits_match := true, channel_error := false,
                            kept_in_key := true }],
               sifted_key := "0", sifted_key_length := 1, qber := 0,
               error_rate := 0, eve_fraction := 0,
               summary :=
                 { total_qubits := 1, matching_bases := 1, non_matching_bases := 0,
                   correct_when_bases_match := 1,
                   correct_when_bases_dont_match := 0, eve_interceptions := 0,
                   eve_caused_errors := 0, channel_errors := 0,
                   sifted_key_length := 1, qber := 0 } },
             { npZeroState with ipos := 4, upos := 2 }) := by
      norm_num [ht0, hl0, simulate_detailed, generate_random_bits,
        generate_random_bases, drawIntVec, drawUnifVec, drawUnif1, drawInt1,
        eveLoop, bobMeasureLoop, mkQubitInfo, get_quantum_state, npZeroState,
        List.range_succ, sift_key, npEq, npBoolIndex, maskSelect, calculate_qber,
        compare_arrays, countMismatch, renderBits, truncKey, String.join,
        DetailedResult.mk.injEq, DetailedSummary.mk.injEq, QubitInfo.mk.injEq,
        Prod.mk.injEq, NpState.mk.injEq]
    exact ⟨_, _, hrun⟩
  obtain ⟨rd, std, hd⟩ := hdet
  refine ⟨⟨_, _, rfl, claim_C8.1 1 npZeroState _ _ rfl⟩,
    ⟨_, _, rfl, claim_C8.2.1 1 0 npZeroState _ _ rfl⟩,
    ⟨_, _, heve, claim_C8.2.2.1 1 0 0 npZeroState _ _ heve⟩,
    ⟨_, _, hdeco, claim_C8.2.2.2.1 1 0 0 npZeroState _ _ hdeco⟩,
    ⟨rd, std, hd, claim_C8.2.2.2.2 1 0 0 false npZeroState rd std hd⟩⟩

/-- Claim C3, counterexample: the scenario functions accept no seed and never
reset the random state, so two invocations of `simulate_ideal` with the same
`qubit_count` (threading the global random state from the first call into the
second, as consecutive Python calls do) return different sifted keys: `"0"`
versus `""` on the concrete state `npSplitState`. -/
theorem claim_C3_counterexample :
    ∃ r₁ st₁ r₂ st₂,
      simulate_ideal 1 npSplitState = .ok (r₁, st₁) ∧
      simulate_ideal 1 st₁ = .ok (r₂, st₂) ∧
      r₁.sifted_key = "0" ∧ r₂.sifted_key = "" ∧
      r₁.sifted_key ≠ r₂.sifted_key := by
  refine ⟨_, _, _, _, rfl, rfl, by decide, by decide, by decide⟩

/-- Claim C3, amended: only `main.py`'s `simulate_bb84` takes an optional
seed; when a nonzero seed is supplied, `np.random.seed(seed)` replaces the
global random state and the per-qubit Aer simulator runs are seeded with the
same value, so two invocations agree bit-for-bit on every field (bits,
bases, measurements, sifted keys and QBER) regardless of the ambient random
state or of the unseeded-simulator outcomes; with seed `0` the Python
truthiness test `seed if seed else None` leaves the simulator unseeded. -/
theorem claim_C3 (mtSeed : Int → NpState)
    (aerSeeded : Int → ℚ → Int → String → String → Int)
    (aerUnseeded₁ aerUnseeded₂ : Nat → Int) (n : Nat) (noise : ℚ) (s : Int)
    (st₁ st₂ : NpState) (hs : s ≠ 0) :
    simulate_bb84 mtSeed aerSeeded aerUnseeded₁ n noise (some s) st₁ =
      simulate_bb84 mtSeed aerSeeded aerUnseeded₂ n noise (some s) st₂ := by
  unfold simulate_bb84
  have hf : simFilter (some s) = some s := by simp [simFilter, hs]
  rw [hf]

/-- Claim C3, witness: the amended determinism at seed `42` with two
different ambient states and two different unseeded-simulator oracles. -/
theorem claim_C3_witness :
    (42 : Int) ≠ 0 ∧
    simulate_bb84 (fun _ => npZeroState) (fun _ _ b _ _ => b) (fun _ => 0) 1 0
        (some 42) npZeroState =
      simulate_bb84 (fun _ => npZeroState) (fun _ _ b _ _ => b) (fun _ => 1) 1 0
        (some 42) npSplitState :=
  ⟨by decide,
   claim_C3 (fun _ => npZeroState) (fun _ _ b _ _ => b) (fun _ => 0)
     (fun _ => 1) 1 0 42 npZeroState npSplitState (by decide)⟩
